import Mathlib

/-!
# FairShare Document Parsing Service — verification development

Shallow embedding of `src/python-service/main.py` (FastAPI facade around the
Docling document converter).  The effectful calls — `file.read()`,
`base64.b64decode`, `tmp_file.write`, `converter.convert`,
`export_to_markdown`, `os.unlink` — are modelled by an oracle environment
`Env` whose `Except String` fields carry either the successful result or the
message `str(e)` of the exception the call raised.  The handlers become pure
functions from the environment and the request to the produced result
together with a `Trace` recording the file-system and converter effects.
-/

namespace FairShare

/-- Python `str.lower()` restricted to the ASCII case mapping, which is all
the service ever feeds it (content types and file extensions). -/
def strLower (s : String) : String := String.mk (s.toList.map Char.toLower)

/-- Final path component (`pathlib.PurePath.name`) for the plain filenames the
service receives: the substring after the last `/`. -/
def pathName (p : String) : String :=
  String.mk ((p.toList.reverse.takeWhile (fun c => c ≠ '/')).reverse)

/-- Index of the last `.` in a list of characters, if any. -/
def rfindDot (cs : List Char) : Option Nat :=
  (List.range cs.length).foldl
    (fun acc i => if cs[i]? = some '.' then some i else acc) none

/-- `pathlib.PurePath.suffix`: the extension of the final component, empty
when the last dot is at position 0 (hidden file) or at the very end. -/
def pathSuffix (p : String) : String :=
  let cs := (pathName p).toList
  match rfindDot cs with
  | none => ""
  | some i => if 0 < i ∧ i < cs.length - 1 then String.mk (cs.drop i) else ""

/-- Python `s or d` on strings: `d` when `s` is empty (falsy), else `s`. -/
def pyOr (s d : String) : String := if s = "" then d else s

/-- The `allowed_types` dict of `parse_document`: recognized content types
mapped to the temp-file suffix. -/
def allowed_types (ct : String) : Option String :=
  if ct = "application/pdf" then some ".pdf"
  else if ct = "image/jpeg" then some ".jpg"
  else if ct = "image/jpg" then some ".jpg"
  else if ct = "image/png" then some ".png"
  else none

/-- The extension allow-list `[".pdf", ".jpg", ".jpeg", ".png"]` used by the
filename fallback of `parse_document`'s validation. -/
def validExts : List String := [".pdf", ".jpg", ".jpeg", ".png"]

/-- `ParseResponse` pydantic model: `success`, optional `markdown`,
optional `error` (both default `None`). -/
structure ParseResponse where
  success : Bool
  markdown : Option String
  error : Option String
deriving Repr, DecidableEq

/-- What a handler hands to the transport layer: either an `HTTPException`
(status code and detail) raised out of the handler, or a normal
`ParseResponse` body. -/
inductive HResult where
  | httpError (status_code : Nat) (detail : String)
  | response (r : ParseResponse)
deriving Repr, DecidableEq

/-- Observable effects of one request: whether the transient temp file was
created, the suffix it was created with, the bytes written into it, whether
the converter was invoked, whether `os.unlink` was called on the temp path,
and whether the temp file still exists when the handler returns. -/
structure Trace where
  tempCreated : Bool
  tempSuffix : Option String
  bytesWritten : Option (List Nat)
  converterInvoked : Bool
  unlinkCalled : Bool
  tempExists : Bool
deriving Repr, DecidableEq

/-- Trace of a request that touched neither the file system nor the
converter. -/
def emptyTrace : Trace :=
  { tempCreated := false, tempSuffix := none, bytesWritten := none
    converterInvoked := false, unlinkCalled := false, tempExists := false }

/-- Oracle for the effectful calls of one request.  Each `Except String α`
field is the outcome of the corresponding call: `.ok` with its value, or
`.error` with the `str(e)` of the exception it raised. -/
structure Env where
  readResult : Except String (List Nat)
  b64decode : String → Except String (List Nat)
  writeResult : Except String Unit
  convertResult : Except String Unit
  exportResult : Except String String
  unlinkResult : Except String Unit

/-- The multipart upload seen by `parse_document`: declared content type and
filename, each possibly absent (`None`). -/
structure UploadFile where
  content_type : Option String
  filename : Option String
deriving Repr, DecidableEq

/-- The JSON dict seen by `parse_document_base64`: optional `content` and
`filename` string fields (absent keys modelled as `none`). -/
structure B64Request where
  content : Option String
  filename : Option String
deriving Repr, DecidableEq

/-- The in-band failure envelope the blanket `except Exception` produces:
`success=False`, `error=f"Failed to parse document: {str(e)}"`. -/
def failResp (msg : String) : ParseResponse :=
  { success := false, markdown := none
    error := some ("Failed to parse document: " ++ msg) }

/-- The success envelope: `success=True`, `markdown` populated. -/
def okResp (md : String) : ParseResponse :=
  { success := true, markdown := some md, error := none }

/-- The `finally: os.unlink(tmp_path)` block wrapped by the outer
`except Exception`.  `pending` is the response the inner `try` is about to
deliver (the success envelope, or the failure envelope the outer handler
would build for a pending inner exception).  If the unlink itself raises,
Python discards the pending return/exception and the outer handler catches
the unlink exception instead. -/
def finallyUnlink (env : Env) (tr : Trace) (pending : ParseResponse) :
    HResult × Trace :=
  match env.unlinkResult with
  | .ok _ => (.response pending,
      { tr with unlinkCalled := true, tempExists := false })
  | .error e2 => (.response (failResp e2), { tr with unlinkCalled := true })

/-- The inner `try` of both handlers: `get_converter()`,
`converter.convert(tmp_path)`, `export_to_markdown()`, with the
`finally: os.unlink` and the outer blanket catch. -/
def convertAndExport (env : Env) (tr : Trace) : HResult × Trace :=
  let tr := { tr with converterInvoked := true }
  match env.convertResult with
  | .error e => finallyUnlink env tr (failResp e)
  | .ok _ =>
    match env.exportResult with
    | .error e => finallyUnlink env tr (failResp e)
    | .ok md => finallyUnlink env tr (okResp md)

/-- Shared tail of both handlers after the payload bytes and the temp-file
suffix are resolved: `tempfile.NamedTemporaryFile(delete=False, suffix=...)`
creates the file; `tmp_file.write(content)` may raise — in that case the
`with` block closes the (still existing, `delete=False`) file, the inner
`try/finally` is never entered, and the outer catch returns the failure
envelope without unlinking. -/
def writeAndProcess (env : Env) (suffix : String) (content : List Nat) :
    HResult × Trace :=
  let tr0 : Trace :=
    { tempCreated := true, tempSuffix := some suffix, bytesWritten := none
      converterInvoked := false, unlinkCalled := false, tempExists := true }
  match env.writeResult with
  | .error e => (.response (failResp e), tr0)
  | .ok _ => convertAndExport env { tr0 with bytesWritten := some content }

/-- Trace right after `NamedTemporaryFile` created the file, before any
write succeeded: the state left behind when `tmp_file.write` raises. -/
def liveTrace (s : String) : Trace :=
  { tempCreated := true, tempSuffix := some s, bytesWritten := none
    converterInvoked := false, unlinkCalled := false, tempExists := true }

/-- Trace of a request that ran the converter and whose `os.unlink`
succeeded. -/
def doneTrace (s : String) (c : List Nat) : Trace :=
  { tempCreated := true, tempSuffix := some s, bytesWritten := some c
    converterInvoked := true, unlinkCalled := true, tempExists := false }

/-- Trace of a request that ran the converter but whose `os.unlink`
raised: the temp file survives. -/
def stuckTrace (s : String) (c : List Nat) : Trace :=
  { doneTrace s c with tempExists := true }

/-- The temp-file suffix `parse_document` resolves:
`allowed_types.get(content_type, Path(file.filename or "").suffix or ".pdf")`. -/
def uploadSuffix (file : UploadFile) : String :=
  match allowed_types (file.content_type.getD "") with
  | some s => s
  | none => pyOr (pathSuffix (file.filename.getD "")) ".pdf"

/-- The temp-file suffix `parse_document_base64` resolves:
`Path(filename).suffix.lower() or ".pdf"`. -/
def b64Suffix (filename : String) : String :=
  pyOr (strLower (pathSuffix filename)) ".pdf"

/-- The validation guard of `parse_document`: the declared content type is
not in `allowed_types` and the lowercased filename extension is not in
`validExts`. -/
def validationRejects (file : UploadFile) : Bool :=
  (allowed_types (file.content_type.getD "")).isNone &&
    !(validExts.contains (strLower (pathSuffix (file.filename.getD ""))))

/-- `POST /parse` handler `parse_document`.  Validation failure raises
`HTTPException(400, ...)`; everything after is inside the blanket
`try/except Exception`. -/
def parse_document (env : Env) (file : UploadFile) : HResult × Trace :=
  let content_type := file.content_type.getD ""
  if validationRejects file then
    (.httpError 400
      ("Unsupported file type: " ++ content_type ++ ". Supported: PDF, JPG, PNG"),
     emptyTrace)
  else
    match env.readResult with
    | .error e => (.response (failResp e), emptyTrace)
    | .ok content => writeAndProcess env (uploadSuffix file) content

/-- `POST /parse-base64` handler `parse_document_base64`.  The whole body is
inside the blanket `try/except Exception`; missing `content` defaults to
`""`, missing `filename` to `"document.pdf"`. -/
def parse_document_base64 (env : Env) (data : B64Request) : HResult × Trace :=
  let content_b64 := data.content.getD ""
  let filename := data.filename.getD "document.pdf"
  match env.b64decode content_b64 with
  | .error e => (.response (failResp e), emptyTrace)
  | .ok content => writeAndProcess env (b64Suffix filename) content

/-- `GET /` handler `root`: a constant JSON object, no effects. -/
def root (_env : Env) : List (String × String) × Trace :=
  ([("status", "healthy"), ("service", "FairShare Document Parser")], emptyTrace)

/-- `GET /health` handler `health_check`: a constant JSON object,
no effects. -/
def health_check (_env : Env) : List (String × String) × Trace :=
  ([("status", "ok")], emptyTrace)

/-- An environment in which every effectful call succeeds. -/
def allOkEnv : Env :=
  { readResult := .ok [37, 80, 68, 70]
    b64decode := fun _ => .ok []
    writeResult := .ok ()
    convertResult := .ok ()
    exportResult := .ok "# Invoice"
    unlinkResult := .ok () }

/-- All calls succeed except `base64.b64decode`, which raises. -/
def envDecodeErr : Env := { allOkEnv with b64decode := fun _ => .error "bad base64" }

/-- All calls succeed except `tmp_file.write`, which raises. -/
def envWriteErr : Env := { allOkEnv with writeResult := .error "disk full" }

/-- All calls succeed except `converter.convert`, which raises. -/
def envConvertErr : Env := { allOkEnv with convertResult := .error "convert boom" }

/-- All calls succeed except `export_to_markdown`, which raises. -/
def envExportErr : Env := { allOkEnv with exportResult := .error "export boom" }

/-- All calls succeed except `os.unlink`, which raises. -/
def envUnlinkErr : Env := { allOkEnv with unlinkResult := .error "unlink denied" }

/-- A well-formed PDF upload. -/
def pdfUpload : UploadFile :=
  { content_type := some "application/pdf", filename := some "invoice.pdf" }

/-- An upload with an unsupported declared type and no recognized
extension. -/
def txtUpload : UploadFile :=
  { content_type := some "text/plain", filename := some "notes.txt" }

/-- An upload with a missing declared content type but a `.pdf` filename. -/
def noCtUpload : UploadFile := { content_type := none, filename := some "invoice.pdf" }

/-- A well-formed base64 request. -/
def pdfB64 : B64Request := { content := some "", filename := some "invoice.pdf" }

/-- The envelope invariant of `ParseResponse`: success carries markdown and
no error, failure carries an error and no markdown. -/
def envelopeOk (r : ParseResponse) : Prop :=
  (r.success = true → r.markdown.isSome = true ∧ r.error = none) ∧
  (r.success = false → r.error.isSome = true ∧ r.markdown = none)

example : pathSuffix "invoice.pdf" = ".pdf" := by decide
example : pathSuffix "DOC.PDF" = ".PDF" := by decide
example : pathSuffix "notes.txt" = ".txt" := by decide
example : pathSuffix "noext" = "" := by decide
example : pathSuffix ".bashrc" = "" := by decide
example : pathSuffix "file." = "" := by decide
example : pathSuffix "archive.tar.gz" = ".gz" := by decide
example : strLower ".PDF" = ".pdf" := by decide
example :
    parse_document allOkEnv { content_type := some "application/pdf", filename := some "a.pdf" }
      = (.response (okResp "# Invoice"),
         { tempCreated := true, tempSuffix := some ".pdf"
           bytesWritten := some [37, 80, 68, 70], converterInvoked := true
           unlinkCalled := true, tempExists := false }) := by decide
example :
    (parse_document allOkEnv { content_type := some "text/plain", filename := some "notes.txt" }).1
      = .httpError 400 "Unsupported file type: text/plain. Supported: PDF, JPG, PNG" := by
  decide

/-! ## Equation lemmas for the shared tail `writeAndProcess` -/

theorem wp_write_err (env : Env) (s : String) (c : List Nat) (e : String)
    (hw : env.writeResult = .error e) :
    writeAndProcess env s c = (.response (failResp e), liveTrace s) := by
  simp [writeAndProcess, hw, liveTrace]

theorem wp_ok (env : Env) (s : String) (c : List Nat) (md : String)
    (hw : env.writeResult = .ok ()) (hc : env.convertResult = .ok ())
    (he : env.exportResult = .ok md) (hu : env.unlinkResult = .ok ()) :
    writeAndProcess env s c = (.response (okResp md), doneTrace s c) := by
  simp [writeAndProcess, convertAndExport, finallyUnlink, hw, hc, he, hu, doneTrace]

theorem wp_convert_err (env : Env) (s : String) (c : List Nat) (e : String)
    (hw : env.writeResult = .ok ()) (hc : env.convertResult = .error e)
    (hu : env.unlinkResult = .ok ()) :
    writeAndProcess env s c = (.response (failResp e), doneTrace s c) := by
  simp [writeAndProcess, convertAndExport, finallyUnlink, hw, hc, hu, doneTrace]

theorem wp_export_err (env : Env) (s : String) (c : List Nat) (e : String)
    (hw : env.writeResult = .ok ()) (hc : env.convertResult = .ok ())
    (he : env.exportResult = .error e) (hu : env.unlinkResult = .ok ()) :
    writeAndProcess env s c = (.response (failResp e), doneTrace s c) := by
  simp [writeAndProcess, convertAndExport, finallyUnlink, hw, hc, he, hu, doneTrace]

theorem wp_unlink_err (env : Env) (s : String) (c : List Nat) (e2 : String)
    (hw : env.writeResult = .ok ()) (hu : env.unlinkResult = .error e2) :
    writeAndProcess env s c = (.response (failResp e2), stuckTrace s c) := by
  rcases hc : env.convertResult with e | u
  · simp [writeAndProcess, convertAndExport, finallyUnlink, hw, hc, hu,
      stuckTrace, doneTrace]
  · rcases he : env.exportResult with e | md <;>
      simp [writeAndProcess, convertAndExport, finallyUnlink, hw, hc, he, hu,
        stuckTrace, doneTrace]

/-- Every result of `writeAndProcess` is an in-band response, and its body is
either a success envelope or a blanket-catch failure envelope. -/
theorem wp_fst_shape (env : Env) (s : String) (c : List Nat) :
    (∃ md, (writeAndProcess env s c).1 = .response (okResp md)) ∨
    (∃ e, (writeAndProcess env s c).1 = .response (failResp e)) := by
  rcases hw : env.writeResult with e | u
  · exact .inr ⟨e, by rw [wp_write_err env s c e hw]⟩
  · cases u
    rcases hu : env.unlinkResult with e2 | v
    · exact .inr ⟨e2, by rw [wp_unlink_err env s c e2 hw hu]⟩
    · cases v
      rcases hc : env.convertResult with e | w
      · exact .inr ⟨e, by rw [wp_convert_err env s c e hw hc hu]⟩
      · cases w
        rcases he : env.exportResult with e | md
        · exact .inr ⟨e, by rw [wp_export_err env s c e hw hc he hu]⟩
        · exact .inl ⟨md, by rw [wp_ok env s c md hw hc he hu]⟩

/-- After a successful write, the trace is `doneTrace`, or `stuckTrace`
together with a failing unlink. -/
theorem wp_trace_write_ok (env : Env) (s : String) (c : List Nat)
    (hw : env.writeResult = .ok ()) :
    (writeAndProcess env s c).2 = doneTrace s c ∨
      ((writeAndProcess env s c).2 = stuckTrace s c ∧
        ∃ e2, env.unlinkResult = .error e2) := by
  rcases hu : env.unlinkResult with e2 | v
  · exact .inr ⟨by rw [wp_unlink_err env s c e2 hw hu], e2, rfl⟩
  · cases v
    rcases hc : env.convertResult with e | w
    · exact .inl (by rw [wp_convert_err env s c e hw hc hu])
    · cases w
      rcases he : env.exportResult with e | md
      · exact .inl (by rw [wp_export_err env s c e hw hc he hu])
      · exact .inl (by rw [wp_ok env s c md hw hc he hu])

/-- The temp file is always created with exactly the resolved suffix. -/
theorem wp_tempSuffix (env : Env) (s : String) (c : List Nat) :
    (writeAndProcess env s c).2.tempSuffix = some s ∧
      (writeAndProcess env s c).2.tempCreated = true := by
  rcases hw : env.writeResult with e | u
  · rw [wp_write_err env s c e hw]; exact ⟨rfl, rfl⟩
  · cases u
    rcases wp_trace_write_ok env s c hw with h | ⟨h, _⟩ <;>
      rw [h] <;> exact ⟨rfl, rfl⟩

/-! ## Equation lemmas for the two handlers -/

theorem parse_document_reject (env : Env) (file : UploadFile)
    (h : validationRejects file = true) :
    parse_document env file =
      (.httpError 400 ("Unsupported file type: " ++ file.content_type.getD "" ++
        ". Supported: PDF, JPG, PNG"), emptyTrace) := by
  simp [parse_document, h]

theorem parse_document_read_err (env : Env) (file : UploadFile) (e : String)
    (h : validationRejects file = false) (hr : env.readResult = .error e) :
    parse_document env file = (.response (failResp e), emptyTrace) := by
  simp [parse_document, h, hr]

theorem parse_document_run (env : Env) (file : UploadFile) (c : List Nat)
    (h : validationRejects file = false) (hr : env.readResult = .ok c) :
    parse_document env file = writeAndProcess env (uploadSuffix file) c := by
  simp [parse_document, h, hr]

theorem parse_b64_decode_err (env : Env) (data : B64Request) (e : String)
    (hb : env.b64decode (data.content.getD "") = .error e) :
    parse_document_base64 env data = (.response (failResp e), emptyTrace) := by
  simp [parse_document_base64, hb]

theorem parse_b64_run (env : Env) (data : B64Request) (c : List Nat)
    (hb : env.b64decode (data.content.getD "") = .ok c) :
    parse_document_base64 env data =
      writeAndProcess env (b64Suffix (data.filename.getD "document.pdf")) c := by
  simp [parse_document_base64, hb]

/-- When validation passes, `parse_document` always hands the transport a
normal response. -/
theorem parse_document_isResponse (env : Env) (file : UploadFile)
    (h : validationRejects file = false) :
    ∃ r, (parse_document env file).1 = .response r := by
  rcases hr : env.readResult with e | c
  · exact ⟨failResp e, by rw [parse_document_read_err env file e h hr]⟩
  · rw [parse_document_run env file c h hr]
    rcases wp_fst_shape env (uploadSuffix file) c with ⟨md, hmd⟩ | ⟨e, he⟩
    · exact ⟨okResp md, hmd⟩
    · exact ⟨failResp e, he⟩

/-- `parse_document_base64` always hands the transport a normal response. -/
theorem parse_b64_isResponse (env : Env) (data : B64Request) :
    ∃ r, (parse_document_base64 env data).1 = .response r := by
  rcases hb : env.b64decode (data.content.getD "") with e | c
  · exact ⟨failResp e, by rw [parse_b64_decode_err env data e hb]⟩
  · rw [parse_b64_run env data c hb]
    rcases wp_fst_shape env (b64Suffix (data.filename.getD "document.pdf")) c with
      ⟨md, hmd⟩ | ⟨e, he⟩
    · exact ⟨okResp md, hmd⟩
    · exact ⟨failResp e, he⟩

theorem envelopeOk_okResp (md : String) : envelopeOk (okResp md) := by
  simp [envelopeOk, okResp]

theorem envelopeOk_failResp (e : String) : envelopeOk (failResp e) := by
  simp [envelopeOk, failResp]

/-! ## Claims -/

/-- C1: every `ParseResponse` either handler hands the transport satisfies
the envelope invariant: `success = true` implies `markdown` present and
`error` absent, `success = false` implies `error` present and `markdown`
absent; no response carries both or neither. -/
theorem envelope_invariant (env : Env) (file : UploadFile) (data : B64Request) :
    (∀ r, (parse_document env file).1 = .response r → envelopeOk r) ∧
    (∀ r, (parse_document_base64 env data).1 = .response r → envelopeOk r) := by
  constructor
  · intro r hr
    cases hv : validationRejects file with
    | true =>
      rw [parse_document_reject env file hv] at hr
      simp at hr
    | false =>
      rcases hr2 : env.readResult with e | c
      · rw [parse_document_read_err env file e hv hr2] at hr
        simp at hr
        subst hr
        exact envelopeOk_failResp e
      · rw [parse_document_run env file c hv hr2] at hr
        rcases wp_fst_shape env (uploadSuffix file) c with ⟨md, h⟩ | ⟨e, h⟩ <;>
          rw [h] at hr <;> simp at hr <;> subst hr
        · exact envelopeOk_okResp md
        · exact envelopeOk_failResp e
  · intro r hr
    rcases hb : env.b64decode (data.content.getD "") with e | c
    · rw [parse_b64_decode_err env data e hb] at hr
      simp at hr
      subst hr
      exact envelopeOk_failResp e
    · rw [parse_b64_run env data c hb] at hr
      rcases wp_fst_shape env (b64Suffix (data.filename.getD "document.pdf")) c with
        ⟨md, h⟩ | ⟨e, h⟩ <;> rw [h] at hr <;> simp at hr <;> subst hr
      · exact envelopeOk_okResp md
      · exact envelopeOk_failResp e

theorem envelope_invariant_witness :
    envelopeOk (okResp "# Invoice") ∧ envelopeOk (failResp "bad base64") :=
  ⟨(envelope_invariant allOkEnv pdfUpload pdfB64).1 (okResp "# Invoice") (by decide),
   (envelope_invariant envDecodeErr pdfUpload pdfB64).2 (failResp "bad base64") (by decide)⟩

/-- C4: whenever the transient temp file is created and its write succeeds
(so the handler exits by successful export, a `convert` exception, or an
`export_to_markdown` exception), both handlers invoke `os.unlink` on it, and
when the unlink succeeds the file no longer exists at handler exit. -/
theorem cleanup_invariant (env : Env) (file : UploadFile) (data : B64Request)
    (hw : env.writeResult = .ok ()) :
    ((parse_document env file).2.tempCreated = true →
      (parse_document env file).2.unlinkCalled = true ∧
      (env.unlinkResult = .ok () → (parse_document env file).2.tempExists = false)) ∧
    ((parse_document_base64 env data).2.tempCreated = true →
      (parse_document_base64 env data).2.unlinkCalled = true ∧
      (env.unlinkResult = .ok () →
        (parse_document_base64 env data).2.tempExists = false)) := by
  constructor
  · intro hcr
    cases hv : validationRejects file with
    | true =>
      rw [parse_document_reject env file hv] at hcr
      simp [emptyTrace] at hcr
    | false =>
      rcases hr : env.readResult with e | c
      · rw [parse_document_read_err env file e hv hr] at hcr
        simp [emptyTrace] at hcr
      · rw [parse_document_run env file c hv hr]
        rcases wp_trace_write_ok env (uploadSuffix file) c hw with h | ⟨h, e2, hu2⟩
        · rw [h]; exact ⟨rfl, fun _ => rfl⟩
        · rw [h]
          refine ⟨rfl, fun hu => ?_⟩
          rw [hu] at hu2
          simp at hu2
  · intro hcr
    rcases hb : env.b64decode (data.content.getD "") with e | c
    · rw [parse_b64_decode_err env data e hb] at hcr
      simp [emptyTrace] at hcr
    · rw [parse_b64_run env data c hb]
      rcases wp_trace_write_ok env (b64Suffix (data.filename.getD "document.pdf")) c hw
        with h | ⟨h, e2, hu2⟩
      · rw [h]; exact ⟨rfl, fun _ => rfl⟩
      · rw [h]
        refine ⟨rfl, fun hu => ?_⟩
        rw [hu] at hu2
        simp at hu2

theorem cleanup_invariant_witness :
    (parse_document allOkEnv pdfUpload).2.unlinkCalled = true ∧
    (parse_document allOkEnv pdfUpload).2.tempExists = false ∧
    (parse_document_base64 allOkEnv pdfB64).2.unlinkCalled = true ∧
    (parse_document_base64 allOkEnv pdfB64).2.tempExists = false := by
  obtain ⟨h1, h2⟩ := cleanup_invariant allOkEnv pdfUpload pdfB64 rfl
  obtain ⟨a, b⟩ := h1 (by decide)
  obtain ⟨a2, b2⟩ := h2 (by decide)
  exact ⟨a, b rfl, a2, b2 rfl⟩

/-- C6: a `base64.b64decode` exception in `/parse-base64` yields a normal
response equal to `success=false` with
`error = "Failed to parse document: " ++ str(e)` — a string starting with
`"Failed to parse document:"` — and never a transport-level error. -/
theorem b64_decode_error_inband (env : Env) (data : B64Request) (e : String)
    (h : env.b64decode (data.content.getD "") = .error e) :
    parse_document_base64 env data = (.response (failResp e), emptyTrace) ∧
    (∀ s d, (parse_document_base64 env data).1 ≠ .httpError s d) := by
  refine ⟨parse_b64_decode_err env data e h, fun s d hne => ?_⟩
  rw [parse_b64_decode_err env data e h] at hne
  simp at hne

theorem b64_decode_error_inband_witness :
    parse_document_base64 envDecodeErr pdfB64 =
      (.response (failResp "bad base64"), emptyTrace) :=
  (b64_decode_error_inband envDecodeErr pdfB64 "bad base64" rfl).1

/-- C8: `GET /health` and `GET /` are pure constants: same static JSON
object on every call, independent of the environment, with an empty effect
trace (in particular the converter is never invoked). -/
theorem health_endpoints_constant (env env2 : Env) :
    health_check env = ([("status", "ok")], emptyTrace) ∧
    root env = ([("status", "healthy"), ("service", "FairShare Document Parser")],
      emptyTrace) ∧
    health_check env = health_check env2 ∧
    root env = root env2 ∧
    (health_check env).2.converterInvoked = false ∧
    (root env).2.converterInvoked = false :=
  ⟨rfl, rfl, rfl, rfl, rfl, rfl⟩

/-- `allowed_types` recognizes exactly the four content types of the
allow-list. -/
theorem allowed_types_eq_none (ct : String) :
    allowed_types ct = none ↔
      ct ∉ (["application/pdf", "image/jpeg", "image/jpg", "image/png"] :
        List String) := by
  unfold allowed_types
  split_ifs with h1 h2 h3 h4 <;> simp [*]

/-- After a successful write, the payload bytes were written to the temp
file and the converter was invoked. -/
theorem wp_write_ok_fields (env : Env) (s : String) (c : List Nat)
    (hw : env.writeResult = .ok ()) :
    (writeAndProcess env s c).2.bytesWritten = some c ∧
      (writeAndProcess env s c).2.converterInvoked = true := by
  rcases wp_trace_write_ok env s c hw with h | ⟨h, _⟩ <;> rw [h] <;> exact ⟨rfl, rfl⟩

/-- C2: every exception raised during base64 decoding, temp-file writing,
conversion, or Markdown export is caught and becomes an in-band response
with `success = false` and `error = "Failed to parse document: " ++ str(e)`,
and (past upload validation) neither handler ever raises to the transport
layer. -/
theorem blanket_catch (env : Env) (file : UploadFile) (data : B64Request)
    (e : String) :
    (env.b64decode (data.content.getD "") = .error e →
      (parse_document_base64 env data).1 = .response (failResp e)) ∧
    (validationRejects file = false → env.writeResult = .error e →
      ∀ c, env.readResult = .ok c →
        (parse_document env file).1 = .response (failResp e)) ∧
    (env.writeResult = .error e →
      ∀ c, env.b64decode (data.content.getD "") = .ok c →
        (parse_document_base64 env data).1 = .response (failResp e)) ∧
    (validationRejects file = false → env.writeResult = .ok () →
      env.convertResult = .error e → env.unlinkResult = .ok () →
      ∀ c, env.readResult = .ok c →
        (parse_document env file).1 = .response (failResp e)) ∧
    (env.writeResult = .ok () → env.convertResult = .error e →
      env.unlinkResult = .ok () →
      ∀ c, env.b64decode (data.content.getD "") = .ok c →
        (parse_document_base64 env data).1 = .response (failResp e)) ∧
    (validationRejects file = false → env.writeResult = .ok () →
      env.convertResult = .ok () → env.exportResult = .error e →
      env.unlinkResult = .ok () →
      ∀ c, env.readResult = .ok c →
        (parse_document env file).1 = .response (failResp e)) ∧
    (env.writeResult = .ok () → env.convertResult = .ok () →
      env.exportResult = .error e → env.unlinkResult = .ok () →
      ∀ c, env.b64decode (data.content.getD "") = .ok c →
        (parse_document_base64 env data).1 = .response (failResp e)) ∧
    (validationRejects file = false →
      ∀ s d, (parse_document env file).1 ≠ .httpError s d) ∧
    (∀ s d, (parse_document_base64 env data).1 ≠ .httpError s d) := by
  refine ⟨?_, ?_, ?_, ?_, ?_, ?_, ?_, ?_, ?_⟩
  · intro h
    rw [parse_b64_decode_err env data e h]
  · intro hv hw c hr
    rw [parse_document_run env file c hv hr, wp_write_err env _ c e hw]
  · intro hw c hb
    rw [parse_b64_run env data c hb, wp_write_err env _ c e hw]
  · intro hv hw hc hu c hr
    rw [parse_document_run env file c hv hr, wp_convert_err env _ c e hw hc hu]
  · intro hw hc hu c hb
    rw [parse_b64_run env data c hb, wp_convert_err env _ c e hw hc hu]
  · intro hv hw hc he hu c hr
    rw [parse_document_run env file c hv hr, wp_export_err env _ c e hw hc he hu]
  · intro hw hc he hu c hb
    rw [parse_b64_run env data c hb, wp_export_err env _ c e hw hc he hu]
  · intro hv s d hne
    obtain ⟨r, hr⟩ := parse_document_isResponse env file hv
    rw [hr] at hne
    simp at hne
  · intro s d hne
    obtain ⟨r, hr⟩ := parse_b64_isResponse env data
    rw [hr] at hne
    simp at hne

theorem blanket_catch_witness :
    (parse_document_base64 envDecodeErr pdfB64).1 =
      .response (failResp "bad base64") ∧
    (parse_document envWriteErr pdfUpload).1 = .response (failResp "disk full") ∧
    (parse_document_base64 envWriteErr pdfB64).1 =
      .response (failResp "disk full") ∧
    (parse_document envConvertErr pdfUpload).1 =
      .response (failResp "convert boom") ∧
    (parse_document_base64 envConvertErr pdfB64).1 =
      .response (failResp "convert boom") ∧
    (parse_document envExportErr pdfUpload).1 =
      .response (failResp "export boom") ∧
    (parse_document_base64 envExportErr pdfB64).1 =
      .response (failResp "export boom") := by
  refine ⟨?_, ?_, ?_, ?_, ?_, ?_, ?_⟩
  · exact (blanket_catch envDecodeErr pdfUpload pdfB64 "bad base64").1 rfl
  · exact (blanket_catch envWriteErr pdfUpload pdfB64 "disk full").2.1 (by decide)
      rfl [37, 80, 68, 70] rfl
  · exact (blanket_catch envWriteErr pdfUpload pdfB64 "disk full").2.2.1 rfl [] rfl
  · exact (blanket_catch envConvertErr pdfUpload pdfB64 "convert boom").2.2.2.1
      (by decide) rfl rfl rfl [37, 80, 68, 70] rfl
  · exact (blanket_catch envConvertErr pdfUpload pdfB64 "convert boom").2.2.2.2.1
      rfl rfl rfl [] rfl
  · exact (blanket_catch envExportErr pdfUpload pdfB64 "export boom").2.2.2.2.2.1
      (by decide) rfl rfl rfl rfl [37, 80, 68, 70] rfl
  · exact (blanket_catch envExportErr pdfUpload pdfB64 "export boom").2.2.2.2.2.2.1
      rfl rfl rfl rfl [] rfl

/-- C3: `parse_document` raises `HTTPException` exactly when the declared
content type is outside the four-entry allow-list and the lowercased
filename extension is outside `validExts`; the rejection is HTTP 400 with a
detail naming the rejected content type, and it is the only raising path. -/
theorem validation_http400 (env : Env) (file : UploadFile) :
    (validationRejects file = true ↔
      (file.content_type.getD "") ∉
          (["application/pdf", "image/jpeg", "image/jpg", "image/png"] :
            List String) ∧
        strLower (pathSuffix (file.filename.getD "")) ∉ validExts) ∧
    ((∃ s d, (parse_document env file).1 = .httpError s d) ↔
      validationRejects file = true) ∧
    (validationRejects file = true →
      parse_document env file =
        (.httpError 400 ("Unsupported file type: " ++ file.content_type.getD "" ++
          ". Supported: PDF, JPG, PNG"), emptyTrace)) := by
  refine ⟨?_, ⟨?_, ?_⟩, parse_document_reject env file⟩
  · simp [validationRejects, allowed_types_eq_none]
  · rintro ⟨s, d, hsd⟩
    cases hv : validationRejects file with
    | true => rfl
    | false =>
      obtain ⟨r, hr⟩ := parse_document_isResponse env file hv
      rw [hr] at hsd
      simp at hsd
  · intro hv
    exact ⟨400, _, by rw [parse_document_reject env file hv]⟩

theorem validation_http400_witness :
    parse_document allOkEnv txtUpload =
      (.httpError 400 ("Unsupported file type: " ++ txtUpload.content_type.getD "" ++
        ". Supported: PDF, JPG, PNG"), emptyTrace) :=
  (validation_http400 allOkEnv txtUpload).2.2 (by decide)

/-- C5: an upload whose declared content type is missing or unrecognized
but whose filename extension, lowercased, is one of `.pdf`, `.jpg`, `.jpeg`,
`.png` passes validation, is never rejected with a 400, and runs through the
convert/export pipeline. -/
theorem extension_fallback (env : Env) (file : UploadFile)
    (h1 : allowed_types (file.content_type.getD "") = none)
    (h2 : strLower (pathSuffix (file.filename.getD "")) ∈ validExts) :
    validationRejects file = false ∧
    (∀ s d, (parse_document env file).1 ≠ .httpError s d) ∧
    (∀ c md, env.readResult = .ok c → env.writeResult = .ok () →
      env.convertResult = .ok () → env.exportResult = .ok md →
      env.unlinkResult = .ok () →
      parse_document env file =
        (.response (okResp md), doneTrace (uploadSuffix file) c)) := by
  have hv : validationRejects file = false := by
    simp [validationRejects, h1, h2]
  refine ⟨hv, fun s d hne => ?_, fun c md hr hw hc he hu => ?_⟩
  · obtain ⟨r, hrr⟩ := parse_document_isResponse env file hv
    rw [hrr] at hne
    simp at hne
  · rw [parse_document_run env file c hv hr, wp_ok env _ c md hw hc he hu]

theorem extension_fallback_witness :
    validationRejects noCtUpload = false ∧
    parse_document allOkEnv noCtUpload =
      (.response (okResp "# Invoice"),
        doneTrace (uploadSuffix noCtUpload) [37, 80, 68, 70]) := by
  obtain ⟨a, _, b⟩ := extension_fallback allOkEnv noCtUpload (by decide) (by decide)
  exact ⟨a, b [37, 80, 68, 70] "# Invoice" rfl rfl rfl rfl rfl⟩

/-- C7 (counterexample): for `/parse-base64` with filename `"DOC.PDF"` the
transient file's suffix is the lowercased `".pdf"`, not the filename's
extension `".PDF"`, refuting the claim that it is the filename's
extension. -/
theorem b64_suffix_not_filename_extension :
    pathSuffix "DOC.PDF" = ".PDF" ∧
    (parse_document_base64 allOkEnv
        { content := some "", filename := some "DOC.PDF" }).2.tempSuffix =
      some ".pdf" ∧
    (parse_document_base64 allOkEnv
        { content := some "", filename := some "DOC.PDF" }).2.tempSuffix ≠
      some (pathSuffix "DOC.PDF") :=
  ⟨by decide, by decide, by decide⟩

/-- C7 (amended): whenever the transient file is created, its suffix is, in
`/parse`, the allow-list mapping of a recognized content type, otherwise the
filename's extension, defaulting to `".pdf"` when neither determines it; in
`/parse-base64` it is the lowercased filename extension, defaulting to
`".pdf"` when the filename has no extension. -/
theorem tmp_suffix_resolution (env : Env) (file : UploadFile) (data : B64Request) :
    ((parse_document env file).2.tempCreated = true →
      (parse_document env file).2.tempSuffix =
        some (match allowed_types (file.content_type.getD "") with
          | some s => s
          | none => pyOr (pathSuffix (file.filename.getD "")) ".pdf")) ∧
    ((parse_document_base64 env data).2.tempCreated = true →
      (parse_document_base64 env data).2.tempSuffix =
        some (pyOr (strLower (pathSuffix (data.filename.getD "document.pdf")))
          ".pdf")) := by
  constructor
  · intro hcr
    cases hv : validationRejects file with
    | true =>
      rw [parse_document_reject env file hv] at hcr
      simp [emptyTrace] at hcr
    | false =>
      rcases hr : env.readResult with e | c
      · rw [parse_document_read_err env file e hv hr] at hcr
        simp [emptyTrace] at hcr
      · rw [parse_document_run env file c hv hr,
          (wp_tempSuffix env (uploadSuffix file) c).1]
        rfl
  · intro hcr
    rcases hb : env.b64decode (data.content.getD "") with e | c
    · rw [parse_b64_decode_err env data e hb] at hcr
      simp [emptyTrace] at hcr
    · rw [parse_b64_run env data c hb,
        (wp_tempSuffix env (b64Suffix (data.filename.getD "document.pdf")) c).1]
      rfl

theorem tmp_suffix_resolution_witness :
    (parse_document allOkEnv pdfUpload).2.tempSuffix = some ".pdf" ∧
    (parse_document_base64 allOkEnv
        { content := some "", filename := some "UPPER.PDF" }).2.tempSuffix =
      some ".pdf" := by
  obtain ⟨a, b⟩ := tmp_suffix_resolution allOkEnv pdfUpload
    { content := some "", filename := some "UPPER.PDF" }
  constructor
  · have h := a (by decide)
    simpa [allowed_types] using h
  · have h := b (by decide)
    simpa using h

/-- C9: when conversion and export both succeed but the `finally`-block
`os.unlink` raises, both handlers discard the already-built success response
and return `success = false` with a `"Failed to parse document: "` error
carrying the unlink exception's message. -/
theorem unlink_failure_discards_success (env : Env) (file : UploadFile)
    (data : B64Request) (md e2 : String) (c c2 : List Nat)
    (hw : env.writeResult = .ok ()) (_hc : env.convertResult = .ok ())
    (_he : env.exportResult = .ok md) (hu : env.unlinkResult = .error e2) :
    (validationRejects file = false → env.readResult = .ok c →
      parse_document env file =
        (.response (failResp e2), stuckTrace (uploadSuffix file) c)) ∧
    (env.b64decode (data.content.getD "") = .ok c2 →
      parse_document_base64 env data =
        (.response (failResp e2),
          stuckTrace (b64Suffix (data.filename.getD "document.pdf")) c2)) := by
  constructor
  · intro hv hr
    rw [parse_document_run env file c hv hr, wp_unlink_err env _ c e2 hw hu]
  · intro hb
    rw [parse_b64_run env data c2 hb, wp_unlink_err env _ c2 e2 hw hu]

theorem unlink_failure_discards_success_witness :
    parse_document envUnlinkErr pdfUpload =
      (.response (failResp "unlink denied"),
        stuckTrace (uploadSuffix pdfUpload) [37, 80, 68, 70]) ∧
    parse_document_base64 envUnlinkErr pdfB64 =
      (.response (failResp "unlink denied"),
        stuckTrace (b64Suffix (pdfB64.filename.getD "document.pdf")) []) := by
  obtain ⟨a, b⟩ := unlink_failure_discards_success envUnlinkErr pdfUpload pdfB64
    "# Invoice" "unlink denied" [37, 80, 68, 70] [] rfl rfl rfl rfl
  exact ⟨a (by decide) rfl, b rfl⟩

/-- C10: `/parse-base64` performs no content-type or extension validation
and never raises to the transport layer: every dict input gets a normal
response; a missing `content` behaves as the empty string, a missing
`filename` as `"document.pdf"`; an unsupported extension such as `.txt` is
passed straight to the converter, and a converter failure is reported only
in-band as `success = false`. -/
theorem b64_no_validation (env : Env) (data : B64Request) :
    (∃ r, (parse_document_base64 env data).1 = .response r) ∧
    (parse_document_base64 env { content := none, filename := data.filename } =
      parse_document_base64 env { content := some "", filename := data.filename }) ∧
    (parse_document_base64 env { content := data.content, filename := none } =
      parse_document_base64 env
        { content := data.content, filename := some "document.pdf" }) ∧
    (∀ c, env.b64decode "" = .ok c → env.writeResult = .ok () →
      (parse_document_base64 env
          { content := none, filename := data.filename }).2.bytesWritten =
        some c) ∧
    (∀ c, env.b64decode "" = .ok c → env.writeResult = .ok () →
      (parse_document_base64 env
            { content := some "", filename := some "doc.txt" }).2.tempSuffix =
          some ".txt" ∧
        (parse_document_base64 env
            { content := some "", filename := some "doc.txt" }).2.converterInvoked =
          true) ∧
    (∀ c e, env.b64decode "" = .ok c → env.writeResult = .ok () →
      env.convertResult = .error e → env.unlinkResult = .ok () →
      (parse_document_base64 env
          { content := some "", filename := some "doc.txt" }).1 =
        .response (failResp e)) := by
  refine ⟨parse_b64_isResponse env data, rfl, rfl, ?_, ?_, ?_⟩
  · intro c hb hw
    rw [parse_b64_run env { content := none, filename := data.filename } c hb]
    exact (wp_write_ok_fields env _ c hw).1
  · intro c hb hw
    constructor
    · rw [parse_b64_run env { content := some "", filename := some "doc.txt" } c hb,
        (wp_tempSuffix env _ c).1]
      decide
    · rw [parse_b64_run env { content := some "", filename := some "doc.txt" } c hb]
      exact (wp_write_ok_fields env _ c hw).2
  · intro c e hb hw hc hu
    rw [parse_b64_run env { content := some "", filename := some "doc.txt" } c hb,
      wp_convert_err env _ c e hw hc hu]

theorem b64_no_validation_witness :
    (parse_document_base64 allOkEnv
        { content := none, filename := pdfB64.filename }).2.bytesWritten =
      some [] ∧
    (parse_document_base64 allOkEnv
        { content := some "", filename := some "doc.txt" }).2.tempSuffix =
      some ".txt" ∧
    (parse_document_base64 envConvertErr
        { content := some "", filename := some "doc.txt" }).1 =
      .response (failResp "convert boom") := by
  refine ⟨?_, ?_, ?_⟩
  · exact (b64_no_validation allOkEnv pdfB64).2.2.2.1 [] rfl rfl
  · exact ((b64_no_validation allOkEnv pdfB64).2.2.2.2.1 [] rfl rfl).1
  · exact (b64_no_validation envConvertErr pdfB64).2.2.2.2.2 [] "convert boom"
      rfl rfl rfl rfl

end FairShare
